import Mathlib

/-!
A shallow embedding of the `ct::optcon::ShotContainer` class of the
Control Toolbox DMS (direct multiple shooting) core, together with proofs
about its four-tier lazy-evaluation cache keyed on the decision vector's
update counter.

The external collaborators (integrator, decision vector, time grid) are
modelled abstractly: the integrator's numerical behaviour is an arbitrary
family of pure functions collected in an `Env`, and each tier additionally
returns the list of integrator invocations it performed, so that
"performs no recomputation" is observable.  Machine `double` times and
step sizes are modelled as rationals; `size_t` counters as `Nat`.
-/

namespace CT.Dms

/-- Control spline type of `DmsSettings` (`splineType_`). -/
inductive SplineType
  | PIECEWISE_CONSTANT
  | PIECEWISE_LINEAR
  deriving DecidableEq, Repr

/-- Integration scheme selector of `DmsSettings` (`integrationType_`).
`UNKNOWN` stands for any out-of-enum value reaching the `default` branch
of the constructor's switch. -/
inductive IntegrationType
  | EULER
  | RK4
  | RK5
  | UNKNOWN
  deriving DecidableEq, Repr

/-- Cost evaluation mode of `DmsSettings` (`costEvaluationType_`). -/
inductive CostEvaluationType
  | SIMPLE
  | FULL
  deriving DecidableEq, Repr

/-- The subset of `DmsSettings` read by `ShotContainer`. -/
structure DmsSettings where
  N : Nat
  integrationType : IntegrationType
  dt_sim : ℚ
  costEvaluationType : CostEvaluationType
  splineType : SplineType
  deriving DecidableEq

/-- The `TimeGrid` collaborator: maps a shot index to its start/end time. -/
structure TimeGrid where
  getShotStartTime : Nat → ℚ
  getShotEndTime : Nat → ℚ

/-- The `OptVectorDms` decision vector `w`: an update counter plus abstract
content (per-shot states and control parameters). -/
structure DecisionVector (Content : Type) where
  updateCount : Nat
  content : Content
  deriving DecidableEq

/-- Internal mutable state of the `SensitivityIntegratorCT` collaborator:
the cached state trajectory, cached sensitivity trajectories and cached
linearization, cleared by `clearStates` / `clearSensitivities` /
`clearLinearization`. -/
structure IntegratorInternal (St Lin Sens : Type) where
  states : List St
  sensitivities : Option Sens
  linearization : Option Lin
  deriving DecidableEq

/-- Abstract behaviour of the external collaborators: how the decision
vector content determines the shot's initial state, and what each
integrator routine computes (as a pure function of its inputs and of the
integrator-internal caches it reads). -/
structure Env (Content St Ct M SCM Lin Sens : Type) where
  optimizedState : Content → Nat → St
  integrateX : St → ℚ → Nat → ℚ → List St
  integrateT : St → ℚ → Nat → ℚ → List ℚ
  costOf : List St → ℚ → Nat → ℚ → ℚ
  linearizeOf : List St → Lin
  sensStoreOf : Lin → ℚ → Nat → ℚ → Sens
  sensDX0 : Option Lin → M → ℚ → Nat → ℚ → M
  sensDU0 : Option Lin → SCM → ℚ → Nat → ℚ → SCM
  sensDUf : Option Lin → SCM → ℚ → Nat → ℚ → SCM
  costSensDX0 : Option Lin → Option Sens → St → ℚ → Nat → ℚ → St
  costSensDU0 : Option Lin → Option Sens → Ct → ℚ → Nat → ℚ → Ct
  costSensDUf : Option Lin → Option Sens → Ct → ℚ → Nat → ℚ → Ct
  idM : M
  zeroSCM : SCM
  zeroSt : St
  zeroCt : Ct

/-- The `ShotContainer` state: immutable configuration, derived constants,
the four per-tier last-computed counters, the cached outputs, and the
owned integrator's internal caches. -/
structure ShotContainer (St Ct M SCM Lin Sens : Type) where
  shotNr : Nat
  settings : DmsSettings
  tStart : ℚ
  nSteps : Nat
  integrationCount : Nat
  costIntegrationCount : Nat
  sensIntegrationCount : Nat
  costSensIntegrationCount : Nat
  x_history : List St
  t_history : List ℚ
  dXdSiBack : M
  dXdQiBack : SCM
  dXdQip1Back : SCM
  cost : ℚ
  costGradientSi : St
  costGradientQi : Ct
  costGradientQip1 : Ct
  integratorCT : IntegratorInternal St Lin Sens
  deriving DecidableEq

/-- Fatal configuration errors raised by the `ShotContainer` constructor.
`unknownIntegrationType` models the `default: exit(0)` branch, which also
terminates construction without producing an object. -/
inductive ConfigError
  | shotIndexOutOfRange
  | adaptiveNotSupported
  | unknownIntegrationType
  deriving DecidableEq, Repr

variable {Content St Ct M SCM Lin Sens : Type}

/-- The `ShotContainer` constructor.  Checks the shot index against the
horizon length, rejects unsupported integration schemes, then computes the
shot start time and the fixed step count
`nSteps_ = (t_shot_end - tStart_) / dt_sim_ + 0.5` (truncated to an
unsigned integer).  `uninitM`, `uninitQi`, `uninitQip1` stand for the
indeterminate contents of the default-constructed sensitivity matrices,
which the member-initializer list does not initialize. -/
def mkShotContainer (env : Env Content St Ct M SCM Lin Sens) (timeGrid : TimeGrid)
    (shotNr : Nat) (settings : DmsSettings)
    (uninitM : M) (uninitQi uninitQip1 : SCM) :
    Except ConfigError (ShotContainer St Ct M SCM Lin Sens) :=
  if shotNr ≥ settings.N then .error .shotIndexOutOfRange
  else if settings.integrationType = .RK5 then .error .adaptiveNotSupported
  else if settings.integrationType = .UNKNOWN then .error .unknownIntegrationType
  else
    let tStart := timeGrid.getShotStartTime shotNr
    let t_shot_end := timeGrid.getShotEndTime shotNr
    let nSteps : Nat := (⌊(t_shot_end - tStart) / settings.dt_sim + 1/2⌋).toNat
    .ok
      { shotNr := shotNr
        settings := settings
        tStart := tStart
        nSteps := nSteps
        integrationCount := 0
        costIntegrationCount := 0
        sensIntegrationCount := 0
        costSensIntegrationCount := 0
        x_history := []
        t_history := []
        dXdSiBack := uninitM
        dXdQiBack := uninitQi
        dXdQip1Back := uninitQip1
        cost := 0
        costGradientSi := env.zeroSt
        costGradientQi := env.zeroCt
        costGradientQip1 := env.zeroCt
        integratorCT := { states := [], sensitivities := none, linearization := none } }

/-- Names of the integrator routines, used to log which invocations a tier
performed. -/
inductive IntegratorCall
  | integrate
  | integrateCost
  | linearize
  | sensitivityDX0
  | sensitivityDU0
  | sensitivityDUf
  | costSensitivityDX0
  | costSensitivityDU0
  | costSensitivityDUf
  deriving DecidableEq, Repr

/-- `ShotContainer::integrateShot`: if the update counter differs from the
stored integration counter, store the counter, read the shot's initial
state from the decision vector and re-integrate, overwriting the state and
time histories (the integrator caches the trajectory internally). -/
def integrateShot (env : Env Content St Ct M SCM Lin Sens)
    (w : DecisionVector Content) (c : ShotContainer St Ct M SCM Lin Sens) :
    ShotContainer St Ct M SCM Lin Sens × List IntegratorCall :=
  if w.updateCount ≠ c.integrationCount then
    let initState := env.optimizedState w.content c.shotNr
    let xh := env.integrateX initState c.tStart c.nSteps c.settings.dt_sim
    let th := env.integrateT initState c.tStart c.nSteps c.settings.dt_sim
    ({ c with
        integrationCount := w.updateCount
        x_history := xh
        t_history := th
        integratorCT := { c.integratorCT with states := xh } },
     [.integrate])
  else (c, [])

/-- `ShotContainer::integrateCost`: if stale, store the counter, ensure
`integrateShot` has run, reset the accumulated cost to zero and integrate
the cost functional over the shot. -/
def integrateCost (env : Env Content St Ct M SCM Lin Sens)
    (w : DecisionVector Content) (c : ShotContainer St Ct M SCM Lin Sens) :
    ShotContainer St Ct M SCM Lin Sens × List IntegratorCall :=
  if w.updateCount ≠ c.costIntegrationCount then
    let p := integrateShot env w { c with costIntegrationCount := w.updateCount }
    let c1 := p.1
    let newCost := env.costOf c1.integratorCT.states c1.tStart c1.nSteps c1.settings.dt_sim
    ({ c1 with cost := newCost }, p.2 ++ [.integrateCost])
  else (c, [])

/-- `ShotContainer::integrateSensitivities`: if stale, store the counter,
ensure `integrateShot` has run, seed the state-to-state sensitivity with
the identity and the state-to-start-control sensitivity with zero,
linearize along the trajectory and integrate both; if the control spline
is piecewise-linear, additionally seed with zero and integrate the
state-to-end-control sensitivity. -/
def integrateSensitivities (env : Env Content St Ct M SCM Lin Sens)
    (w : DecisionVector Content) (c : ShotContainer St Ct M SCM Lin Sens) :
    ShotContainer St Ct M SCM Lin Sens × List IntegratorCall :=
  if w.updateCount ≠ c.sensIntegrationCount then
    let p := integrateShot env w { c with sensIntegrationCount := w.updateCount }
    let c1 := p.1
    let lin := env.linearizeOf c1.integratorCT.states
    let store := env.sensStoreOf lin c1.tStart c1.nSteps c1.settings.dt_sim
    let dxdsi := env.sensDX0 (some lin) env.idM c1.tStart c1.nSteps c1.settings.dt_sim
    let dxdqi := env.sensDU0 (some lin) env.zeroSCM c1.tStart c1.nSteps c1.settings.dt_sim
    let c2 := { c1 with
        dXdSiBack := dxdsi
        dXdQiBack := dxdqi
        integratorCT := { c1.integratorCT with
            linearization := some lin
            sensitivities := some store } }
    if c2.settings.splineType = SplineType.PIECEWISE_LINEAR then
      let dxdqip1 := env.sensDUf (some lin) env.zeroSCM c2.tStart c2.nSteps c2.settings.dt_sim
      ({ c2 with dXdQip1Back := dxdqip1 },
       p.2 ++ [.linearize, .sensitivityDX0, .sensitivityDU0, .sensitivityDUf])
    else
      (c2, p.2 ++ [.linearize, .sensitivityDX0, .sensitivityDU0])
  else (c, [])

/-- `ShotContainer::integrateCostSensitivities`: if stale, store the
counter, ensure `integrateSensitivities` has run, reset the cost gradients
w.r.t. the initial state and start control to zero and integrate them; if
the control spline is piecewise-linear, additionally reset and integrate
the gradient w.r.t. the end control. -/
def integrateCostSensitivities (env : Env Content St Ct M SCM Lin Sens)
    (w : DecisionVector Content) (c : ShotContainer St Ct M SCM Lin Sens) :
    ShotContainer St Ct M SCM Lin Sens × List IntegratorCall :=
  if w.updateCount ≠ c.costSensIntegrationCount then
    let p := integrateSensitivities env w { c with costSensIntegrationCount := w.updateCount }
    let c1 := p.1
    let gSi := env.costSensDX0 c1.integratorCT.linearization c1.integratorCT.sensitivities
        env.zeroSt c1.tStart c1.nSteps c1.settings.dt_sim
    let gQi := env.costSensDU0 c1.integratorCT.linearization c1.integratorCT.sensitivities
        env.zeroCt c1.tStart c1.nSteps c1.settings.dt_sim
    let c2 := { c1 with costGradientSi := gSi, costGradientQi := gQi }
    if c2.settings.splineType = SplineType.PIECEWISE_LINEAR then
      let gQip1 := env.costSensDUf c1.integratorCT.linearization c1.integratorCT.sensitivities
          env.zeroCt c1.tStart c1.nSteps c1.settings.dt_sim
      ({ c2 with costGradientQip1 := gQip1 },
       p.2 ++ [.costSensitivityDX0, .costSensitivityDU0, .costSensitivityDUf])
    else
      (c2, p.2 ++ [.costSensitivityDX0, .costSensitivityDU0])
  else (c, [])

/-- `ShotContainer::reset`: calls `clearStates`, `clearSensitivities` and
`clearLinearization` on the owned integrator; touches nothing else. -/
def reset (c : ShotContainer St Ct M SCM Lin Sens) :
    ShotContainer St Ct M SCM Lin Sens :=
  { c with integratorCT := { states := [], sensitivities := none, linearization := none } }

/-- `getStateIntegrated` returns `x_history_.back()`; on an empty history
`std::vector::back` has no defined value, modelled by `none`. -/
def getStateIntegrated (c : ShotContainer St Ct M SCM Lin Sens) : Option St :=
  c.x_history.getLast?

/-- `getIntegrationTimeFinal` returns `t_history_.back()`; on an empty
history `std::vector::back` has no defined value, modelled by `none`. -/
def getIntegrationTimeFinal (c : ShotContainer St Ct M SCM Lin Sens) : Option ℚ :=
  c.t_history.getLast?

def getdXdSiIntegrated (c : ShotContainer St Ct M SCM Lin Sens) : M :=
  c.dXdSiBack

def getdXdQiIntegrated (c : ShotContainer St Ct M SCM Lin Sens) : SCM :=
  c.dXdQiBack

def getdXdQip1Integrated (c : ShotContainer St Ct M SCM Lin Sens) : SCM :=
  c.dXdQip1Back

def getXHistory (c : ShotContainer St Ct M SCM Lin Sens) : List St :=
  c.x_history

def getTHistory (c : ShotContainer St Ct M SCM Lin Sens) : List ℚ :=
  c.t_history

def getCostIntegrated (c : ShotContainer St Ct M SCM Lin Sens) : ℚ :=
  c.cost

def getdLdSiIntegrated (c : ShotContainer St Ct M SCM Lin Sens) : St :=
  c.costGradientSi

def getdLdQiIntegrated (c : ShotContainer St Ct M SCM Lin Sens) : Ct :=
  c.costGradientQi

def getdLdQip1Integrated (c : ShotContainer St Ct M SCM Lin Sens) : Ct :=
  c.costGradientQip1

/-- The four public integration tiers. -/
inductive Tier
  | shot
  | cost
  | sens
  | costSens
  deriving DecidableEq, Repr

/-- Dispatch a tier call. -/
def runTier (t : Tier) (env : Env Content St Ct M SCM Lin Sens)
    (w : DecisionVector Content) (c : ShotContainer St Ct M SCM Lin Sens) :
    ShotContainer St Ct M SCM Lin Sens × List IntegratorCall :=
  match t with
  | .shot => integrateShot env w c
  | .cost => integrateCost env w c
  | .sens => integrateSensitivities env w c
  | .costSens => integrateCostSensitivities env w c

/-- Run a sequence of tier calls against a fixed decision vector,
concatenating the integrator-invocation logs. -/
def runTiers (env : Env Content St Ct M SCM Lin Sens)
    (w : DecisionVector Content) (ts : List Tier)
    (c : ShotContainer St Ct M SCM Lin Sens) :
    ShotContainer St Ct M SCM Lin Sens × List IntegratorCall :=
  match ts with
  | [] => (c, [])
  | t :: rest =>
    let p := runTier t env w c
    let q := runTiers env w rest p.1
    (q.1, p.2 ++ q.2)

/-- The stored counter of a given tier. -/
def tierCount (t : Tier) (c : ShotContainer St Ct M SCM Lin Sens) : Nat :=
  match t with
  | .shot => c.integrationCount
  | .cost => c.costIntegrationCount
  | .sens => c.sensIntegrationCount
  | .costSens => c.costSensIntegrationCount

/-- Downward closure of tier freshness along the dependency chain:
whenever a downstream tier's stored counter equals the decision vector's
current update counter, so do the counters of its prerequisite tiers. -/
def freshInv (c : ShotContainer St Ct M SCM Lin Sens)
    (w : DecisionVector Content) : Prop :=
  (c.costSensIntegrationCount = w.updateCount → c.sensIntegrationCount = w.updateCount) ∧
  (c.sensIntegrationCount = w.updateCount → c.integrationCount = w.updateCount) ∧
  (c.costIntegrationCount = w.updateCount → c.integrationCount = w.updateCount)

instance (c : ShotContainer St Ct M SCM Lin Sens) (w : DecisionVector Content) :
    Decidable (freshInv c w) := by
  unfold freshInv; infer_instance

/-- All four stored counters are bounded by a given counter value. -/
def countersLe (c : ShotContainer St Ct M SCM Lin Sens) (n : Nat) : Prop :=
  c.integrationCount ≤ n ∧ c.costIntegrationCount ≤ n ∧
  c.sensIntegrationCount ≤ n ∧ c.costSensIntegrationCount ≤ n

/-- The tuple of all container-cached outputs (histories, sensitivity
matrices, cost, cost gradients). -/
def cachedOutputs (c : ShotContainer St Ct M SCM Lin Sens) :
    List St × List ℚ × M × SCM × SCM × ℚ × St × Ct × Ct :=
  (c.x_history, c.t_history, c.dXdSiBack, c.dXdQiBack, c.dXdQip1Back,
   c.cost, c.costGradientSi, c.costGradientQi, c.costGradientQip1)

/-- The container/decision-vector pairs that can actually arise: a freshly
constructed container with an arbitrary current decision vector, evolved
by tier calls (the counter fixed during each call) and by decision-vector
mutations (which strictly increase the update counter). -/
inductive Reachable (env : Env Content St Ct M SCM Lin Sens) :
    ShotContainer St Ct M SCM Lin Sens → DecisionVector Content → Prop
  | ctor (timeGrid : TimeGrid) (shotNr : Nat) (settings : DmsSettings)
      (uninitM : M) (uninitQi uninitQip1 : SCM)
      (c : ShotContainer St Ct M SCM Lin Sens) (w : DecisionVector Content)
      (h : mkShotContainer env timeGrid shotNr settings uninitM uninitQi uninitQip1 =
        Except.ok c) :
      Reachable env c w
  | mutate (c : ShotContainer St Ct M SCM Lin Sens) (w w' : DecisionVector Content)
      (hr : Reachable env c w) (hlt : w.updateCount < w'.updateCount) :
      Reachable env c w'
  | tier (t : Tier) (c : ShotContainer St Ct M SCM Lin Sens) (w : DecisionVector Content)
      (hr : Reachable env c w) :
      Reachable env (runTier t env w c).1 w

/-- A concrete integrator environment over integer states and matrices,
used to evaluate the development on concrete inputs. -/
def testEnv : Env Int Int Int Int Int Int Int where
  optimizedState := fun content i => content + Int.ofNat i
  integrateX := fun s _ n _ => List.replicate (n + 1) (s + 1)
  integrateT := fun _ t n dt => [t + (n : ℚ) * dt]
  costOf := fun states _ n _ => (states.length : ℚ) + (n : ℚ)
  linearizeOf := fun states => Int.ofNat states.length
  sensStoreOf := fun l _ n _ => l + Int.ofNat n
  sensDX0 := fun l m _ n _ => l.getD 0 + m + Int.ofNat n
  sensDU0 := fun l m _ n _ => l.getD 0 + m + Int.ofNat n + 1
  sensDUf := fun l m _ n _ => l.getD 0 + m + Int.ofNat n + 2
  costSensDX0 := fun l s g _ n _ => l.getD 0 + s.getD 0 + g + Int.ofNat n
  costSensDU0 := fun l s g _ n _ => l.getD 0 + s.getD 0 + g + Int.ofNat n + 1
  costSensDUf := fun l s g _ n _ => l.getD 0 + s.getD 0 + g + Int.ofNat n + 2
  idM := 1
  zeroSCM := 0
  zeroSt := 0
  zeroCt := 0

/-- A concrete time grid: shot `i` spans `[i, i+1]`. -/
def testTimeGrid : TimeGrid where
  getShotStartTime := fun i => (i : ℚ)
  getShotEndTime := fun i => (i : ℚ) + 1

/-- Concrete settings: horizon 2, Euler, step `1/2`, piecewise-linear
spline. -/
def testSettings : DmsSettings where
  N := 2
  integrationType := .EULER
  dt_sim := 1/2
  costEvaluationType := .FULL
  splineType := .PIECEWISE_LINEAR

/-- The container produced by constructing shot 0 with the concrete
settings above (two integration steps over `[0, 1]`). -/
def testC : ShotContainer Int Int Int Int Int Int where
  shotNr := 0
  settings := testSettings
  tStart := 0
  nSteps := 2
  integrationCount := 0
  costIntegrationCount := 0
  sensIntegrationCount := 0
  costSensIntegrationCount := 0
  x_history := []
  t_history := []
  dXdSiBack := 7
  dXdQiBack := 8
  dXdQip1Back := 9
  cost := 0
  costGradientSi := 0
  costGradientQi := 0
  costGradientQip1 := 0
  integratorCT := { states := [], sensitivities := none, linearization := none }

/-- A decision vector with update counter 1 and content 5. -/
def testW : DecisionVector Int where
  updateCount := 1
  content := 5

/-- A decision vector with update counter 0 and content 5. -/
def testW0 : DecisionVector Int where
  updateCount := 0
  content := 5

/-! ## Basic lemmas about the constructor and the tier functions -/

variable (env : Env Content St Ct M SCM Lin Sens) (w : DecisionVector Content)
variable (c : ShotContainer St Ct M SCM Lin Sens)

/-- Inversion of a successful construction: the container is exactly the
literal the constructor builds. -/
theorem mk_ok_fields {env : Env Content St Ct M SCM Lin Sens} {timeGrid : TimeGrid}
    {shotNr : Nat} {settings : DmsSettings} {uninitM : M} {uninitQi uninitQip1 : SCM}
    {c : ShotContainer St Ct M SCM Lin Sens}
    (h : mkShotContainer env timeGrid shotNr settings uninitM uninitQi uninitQip1 =
      Except.ok c) :
    c = { shotNr := shotNr
          settings := settings
          tStart := timeGrid.getShotStartTime shotNr
          nSteps := (⌊(timeGrid.getShotEndTime shotNr - timeGrid.getShotStartTime shotNr) /
            settings.dt_sim + 1/2⌋).toNat
          integrationCount := 0
          costIntegrationCount := 0
          sensIntegrationCount := 0
          costSensIntegrationCount := 0
          x_history := []
          t_history := []
          dXdSiBack := uninitM
          dXdQiBack := uninitQi
          dXdQip1Back := uninitQip1
          cost := 0
          costGradientSi := env.zeroSt
          costGradientQi := env.zeroCt
          costGradientQip1 := env.zeroCt
          integratorCT := { states := [], sensitivities := none, linearization := none } } := by
  unfold mkShotContainer at h
  split at h
  · exact Except.noConfusion h
  split at h
  · exact Except.noConfusion h
  split at h
  · exact Except.noConfusion h
  simp only [Except.ok.injEq] at h
  exact h.symm

@[simp] theorem integrateShot_fst_integrationCount :
    (integrateShot env w c).1.integrationCount = w.updateCount := by
  unfold integrateShot
  split
  · rfl
  · next h => exact (not_not.mp h).symm

@[simp] theorem integrateShot_fst_costIntegrationCount :
    (integrateShot env w c).1.costIntegrationCount = c.costIntegrationCount := by
  unfold integrateShot; split <;> rfl

@[simp] theorem integrateShot_fst_sensIntegrationCount :
    (integrateShot env w c).1.sensIntegrationCount = c.sensIntegrationCount := by
  unfold integrateShot; split <;> rfl

@[simp] theorem integrateShot_fst_costSensIntegrationCount :
    (integrateShot env w c).1.costSensIntegrationCount = c.costSensIntegrationCount := by
  unfold integrateShot; split <;> rfl

@[simp] theorem integrateShot_fst_settings :
    (integrateShot env w c).1.settings = c.settings := by
  unfold integrateShot; split <;> rfl

@[simp] theorem integrateShot_fst_tStart :
    (integrateShot env w c).1.tStart = c.tStart := by
  unfold integrateShot; split <;> rfl

@[simp] theorem integrateShot_fst_nSteps :
    (integrateShot env w c).1.nSteps = c.nSteps := by
  unfold integrateShot; split <;> rfl

@[simp] theorem integrateShot_fst_shotNr :
    (integrateShot env w c).1.shotNr = c.shotNr := by
  unfold integrateShot; split <;> rfl

@[simp] theorem integrateShot_fst_cost :
    (integrateShot env w c).1.cost = c.cost := by
  unfold integrateShot; split <;> rfl

@[simp] theorem integrateShot_fst_dXdSiBack :
    (integrateShot env w c).1.dXdSiBack = c.dXdSiBack := by
  unfold integrateShot; split <;> rfl

@[simp] theorem integrateShot_fst_dXdQiBack :
    (integrateShot env w c).1.dXdQiBack = c.dXdQiBack := by
  unfold integrateShot; split <;> rfl

@[simp] theorem integrateShot_fst_dXdQip1Back :
    (integrateShot env w c).1.dXdQip1Back = c.dXdQip1Back := by
  unfold integrateShot; split <;> rfl

@[simp] theorem integrateShot_fst_costGradientSi :
    (integrateShot env w c).1.costGradientSi = c.costGradientSi := by
  unfold integrateShot; split <;> rfl

@[simp] theorem integrateShot_fst_costGradientQi :
    (integrateShot env w c).1.costGradientQi = c.costGradientQi := by
  unfold integrateShot; split <;> rfl

@[simp] theorem integrateShot_fst_costGradientQip1 :
    (integrateShot env w c).1.costGradientQip1 = c.costGradientQip1 := by
  unfold integrateShot; split <;> rfl

/-- `integrateShot` leaves its tier counter equal to the current update
counter, so an immediately repeated call is a no-op. -/
theorem integrateShot_noop (h : w.updateCount = c.integrationCount) :
    integrateShot env w c = (c, []) := by
  unfold integrateShot
  simp [h]

theorem integrateCost_noop (h : w.updateCount = c.costIntegrationCount) :
    integrateCost env w c = (c, []) := by
  unfold integrateCost
  simp [h]

theorem integrateSensitivities_noop (h : w.updateCount = c.sensIntegrationCount) :
    integrateSensitivities env w c = (c, []) := by
  unfold integrateSensitivities
  simp [h]

theorem integrateCostSensitivities_noop (h : w.updateCount = c.costSensIntegrationCount) :
    integrateCostSensitivities env w c = (c, []) := by
  unfold integrateCostSensitivities
  simp [h]

@[simp] theorem integrateCost_fst_costIntegrationCount :
    (integrateCost env w c).1.costIntegrationCount = w.updateCount := by
  unfold integrateCost
  split
  · simp
  · next h => exact (not_not.mp h).symm

@[simp] theorem integrateCost_fst_sensIntegrationCount :
    (integrateCost env w c).1.sensIntegrationCount = c.sensIntegrationCount := by
  unfold integrateCost; split <;> simp

@[simp] theorem integrateCost_fst_costSensIntegrationCount :
    (integrateCost env w c).1.costSensIntegrationCount = c.costSensIntegrationCount := by
  unfold integrateCost; split <;> simp

@[simp] theorem integrateCost_fst_settings :
    (integrateCost env w c).1.settings = c.settings := by
  unfold integrateCost; split <;> simp

@[simp] theorem integrateCost_fst_tStart :
    (integrateCost env w c).1.tStart = c.tStart := by
  unfold integrateCost; split <;> simp

@[simp] theorem integrateCost_fst_nSteps :
    (integrateCost env w c).1.nSteps = c.nSteps := by
  unfold integrateCost; split <;> simp

@[simp] theorem integrateCost_fst_shotNr :
    (integrateCost env w c).1.shotNr = c.shotNr := by
  unfold integrateCost; split <;> simp

@[simp] theorem integrateCost_fst_dXdSiBack :
    (integrateCost env w c).1.dXdSiBack = c.dXdSiBack := by
  unfold integrateCost; split <;> simp

@[simp] theorem integrateCost_fst_dXdQiBack :
    (integrateCost env w c).1.dXdQiBack = c.dXdQiBack := by
  unfold integrateCost; split <;> simp

@[simp] theorem integrateCost_fst_dXdQip1Back :
    (integrateCost env w c).1.dXdQip1Back = c.dXdQip1Back := by
  unfold integrateCost; split <;> simp

@[simp] theorem integrateCost_fst_costGradientSi :
    (integrateCost env w c).1.costGradientSi = c.costGradientSi := by
  unfold integrateCost; split <;> simp

@[simp] theorem integrateCost_fst_costGradientQi :
    (integrateCost env w c).1.costGradientQi = c.costGradientQi := by
  unfold integrateCost; split <;> simp

@[simp] theorem integrateCost_fst_costGradientQip1 :
    (integrateCost env w c).1.costGradientQip1 = c.costGradientQip1 := by
  unfold integrateCost; split <;> simp

@[simp] theorem integrateSensitivities_fst_sensIntegrationCount :
    (integrateSensitivities env w c).1.sensIntegrationCount = w.updateCount := by
  unfold integrateSensitivities
  split
  · dsimp only
    split <;> simp
  · next h => exact (not_not.mp h).symm

@[simp] theorem integrateSensitivities_fst_costIntegrationCount :
    (integrateSensitivities env w c).1.costIntegrationCount = c.costIntegrationCount := by
  unfold integrateSensitivities
  split
  · dsimp only
    split <;> simp
  · rfl

@[simp] theorem integrateSensitivities_fst_costSensIntegrationCount :
    (integrateSensitivities env w c).1.costSensIntegrationCount =
      c.costSensIntegrationCount := by
  unfold integrateSensitivities
  split
  · dsimp only
    split <;> simp
  · rfl

@[simp] theorem integrateSensitivities_fst_settings :
    (integrateSensitivities env w c).1.settings = c.settings := by
  unfold integrateSensitivities
  split
  · dsimp only
    split <;> simp
  · rfl

@[simp] theorem integrateSensitivities_fst_tStart :
    (integrateSensitivities env w c).1.tStart = c.tStart := by
  unfold integrateSensitivities
  split
  · dsimp only
    split <;> simp
  · rfl

@[simp] theorem integrateSensitivities_fst_nSteps :
    (integrateSensitivities env w c).1.nSteps = c.nSteps := by
  unfold integrateSensitivities
  split
  · dsimp only
    split <;> simp
  · rfl

@[simp] theorem integrateSensitivities_fst_shotNr :
    (integrateSensitivities env w c).1.shotNr = c.shotNr := by
  unfold integrateSensitivities
  split
  · dsimp only
    split <;> simp
  · rfl

@[simp] theorem integrateSensitivities_fst_cost :
    (integrateSensitivities env w c).1.cost = c.cost := by
  unfold integrateSensitivities
  split
  · dsimp only
    split <;> simp
  · rfl

@[simp] theorem integrateSensitivities_fst_costGradientSi :
    (integrateSensitivities env w c).1.costGradientSi = c.costGradientSi := by
  unfold integrateSensitivities
  split
  · dsimp only
    split <;> simp
  · rfl

@[simp] theorem integrateSensitivities_fst_costGradientQi :
    (integrateSensitivities env w c).1.costGradientQi = c.costGradientQi := by
  unfold integrateSensitivities
  split
  · dsimp only
    split <;> simp
  · rfl

@[simp] theorem integrateSensitivities_fst_costGradientQip1 :
    (integrateSensitivities env w c).1.costGradientQip1 = c.costGradientQip1 := by
  unfold integrateSensitivities
  split
  · dsimp only
    split <;> simp
  · rfl

@[simp] theorem integrateCostSensitivities_fst_costSensIntegrationCount :
    (integrateCostSensitivities env w c).1.costSensIntegrationCount = w.updateCount := by
  unfold integrateCostSensitivities
  split
  · dsimp only
    split <;> simp
  · next h => exact (not_not.mp h).symm

@[simp] theorem integrateCostSensitivities_fst_costIntegrationCount :
    (integrateCostSensitivities env w c).1.costIntegrationCount =
      c.costIntegrationCount := by
  unfold integrateCostSensitivities
  split
  · dsimp only
    split <;> simp
  · rfl

@[simp] theorem integrateCostSensitivities_fst_cost :
    (integrateCostSensitivities env w c).1.cost = c.cost := by
  unfold integrateCostSensitivities
  split
  · dsimp only
    split <;> simp
  · rfl

/-- After a stale `integrateSensitivities` call the state-integration
counter is current (the tier re-ran `integrateShot`). -/
theorem integrateSensitivities_stale_integrationCount
    (h : w.updateCount ≠ c.sensIntegrationCount) :
    (integrateSensitivities env w c).1.integrationCount = w.updateCount := by
  unfold integrateSensitivities
  rw [if_pos h]
  dsimp only
  split <;> simp

/-- After a stale `integrateCost` call the state-integration counter is
current (the tier re-ran `integrateShot`). -/
theorem integrateCost_stale_integrationCount
    (h : w.updateCount ≠ c.costIntegrationCount) :
    (integrateCost env w c).1.integrationCount = w.updateCount := by
  unfold integrateCost
  rw [if_pos h]
  simp

/-- After a stale `integrateCostSensitivities` call the sensitivity
counter is current (the tier re-ran `integrateSensitivities`). -/
theorem integrateCostSensitivities_stale_sensIntegrationCount
    (h : w.updateCount ≠ c.costSensIntegrationCount) :
    (integrateCostSensitivities env w c).1.sensIntegrationCount = w.updateCount := by
  unfold integrateCostSensitivities
  rw [if_pos h]
  dsimp only
  split <;> simp

@[simp] theorem integrateShot_snd_of_ne (h : w.updateCount ≠ c.integrationCount) :
    (integrateShot env w c).2 = [IntegratorCall.integrate] := by
  unfold integrateShot
  rw [if_pos h]

theorem integrateShot_snd_mem {x : IntegratorCall}
    (hx : x ∈ (integrateShot env w c).2) : x = IntegratorCall.integrate := by
  unfold integrateShot at hx
  split at hx <;> simp_all

theorem integrateCost_snd_of_ne (h : w.updateCount ≠ c.costIntegrationCount) :
    (integrateCost env w c).2 =
      (integrateShot env w { c with costIntegrationCount := w.updateCount }).2 ++
        [IntegratorCall.integrateCost] := by
  unfold integrateCost
  rw [if_pos h]

theorem integrateSensitivities_snd_of_ne (h : w.updateCount ≠ c.sensIntegrationCount) :
    (integrateSensitivities env w c).2 =
      (integrateShot env w { c with sensIntegrationCount := w.updateCount }).2 ++
        (if c.settings.splineType = SplineType.PIECEWISE_LINEAR then
          [IntegratorCall.linearize, IntegratorCall.sensitivityDX0,
           IntegratorCall.sensitivityDU0, IntegratorCall.sensitivityDUf]
        else
          [IntegratorCall.linearize, IntegratorCall.sensitivityDX0,
           IntegratorCall.sensitivityDU0]) := by
  unfold integrateSensitivities
  rw [if_pos h]
  simp only [integrateShot_fst_settings]
  split <;> rfl

theorem integrateCostSensitivities_snd_of_ne
    (h : w.updateCount ≠ c.costSensIntegrationCount) :
    (integrateCostSensitivities env w c).2 =
      (integrateSensitivities env w { c with costSensIntegrationCount := w.updateCount }).2 ++
        (if c.settings.splineType = SplineType.PIECEWISE_LINEAR then
          [IntegratorCall.costSensitivityDX0, IntegratorCall.costSensitivityDU0,
           IntegratorCall.costSensitivityDUf]
        else
          [IntegratorCall.costSensitivityDX0, IntegratorCall.costSensitivityDU0]) := by
  unfold integrateCostSensitivities
  rw [if_pos h]
  simp only [integrateSensitivities_fst_settings]
  split <;> rfl

/-- After a stale `integrateCostSensitivities` call on a state satisfying
the downward-closure invariant, the state-integration counter is
current. -/
theorem integrateCostSensitivities_stale_fst_integrationCount_eq
    (h : w.updateCount ≠ c.costSensIntegrationCount) :
    (integrateCostSensitivities env w c).1.integrationCount =
      (integrateSensitivities env w
        { c with costSensIntegrationCount := w.updateCount }).1.integrationCount := by
  unfold integrateCostSensitivities
  rw [if_pos h]
  dsimp only
  split <;> rfl

theorem integrateCostSensitivities_stale_integrationCount
    (hinv : freshInv c w) (h : w.updateCount ≠ c.costSensIntegrationCount) :
    (integrateCostSensitivities env w c).1.integrationCount = w.updateCount := by
  rw [integrateCostSensitivities_stale_fst_integrationCount_eq env w c h]
  by_cases hsens : w.updateCount = c.sensIntegrationCount
  · rw [integrateSensitivities_noop env w
      { c with costSensIntegrationCount := w.updateCount } hsens]
    exact hinv.2.1 hsens.symm
  · exact integrateSensitivities_stale_integrationCount env w _ hsens

/-! ## Claim theorems -/

/-- C1: for each of the four integration tiers, calling the tier again
with no change to the decision vector's update counter after a first call
performs no integrator invocation (empty invocation log) and returns the
container exactly as the first call left it. -/
theorem tier_second_call_noop (env : Env Content St Ct M SCM Lin Sens)
    (w w' : DecisionVector Content) (c : ShotContainer St Ct M SCM Lin Sens)
    (t : Tier) (h : w'.updateCount = w.updateCount) :
    runTier t env w' ((runTier t env w c).1) = ((runTier t env w c).1, []) := by
  cases t
  · exact integrateShot_noop env w' _ (by rw [h]; simp [runTier])
  · exact integrateCost_noop env w' _ (by rw [h]; simp [runTier])
  · exact integrateSensitivities_noop env w' _ (by rw [h]; simp [runTier])
  · exact integrateCostSensitivities_noop env w' _ (by rw [h]; simp [runTier])

/-- Witness for C1 at a concrete input. -/
theorem tier_second_call_noop_witness :
    testW.updateCount = testW.updateCount ∧
    runTier Tier.cost testEnv testW ((runTier Tier.cost testEnv testW testC).1) =
      ((runTier Tier.cost testEnv testW testC).1, []) :=
  ⟨rfl, tier_second_call_noop testEnv testW testW testC Tier.cost rfl⟩

theorem integrateSensitivities_snd_mem {x : IntegratorCall}
    (hx : x ∈ (integrateSensitivities env w c).2) :
    x = IntegratorCall.integrate ∨ x = IntegratorCall.linearize ∨
    x = IntegratorCall.sensitivityDX0 ∨ x = IntegratorCall.sensitivityDU0 ∨
    x = IntegratorCall.sensitivityDUf := by
  by_cases h : w.updateCount = c.sensIntegrationCount
  · rw [integrateSensitivities_noop env w c h] at hx
    simp at hx
  · rw [integrateSensitivities_snd_of_ne env w c h] at hx
    rcases List.mem_append.mp hx with hx | hx
    · exact Or.inl (integrateShot_snd_mem env w _ hx)
    · split at hx <;> simp at hx <;> tauto

theorem integrateShot_integrate_mem (h : w.updateCount ≠ c.integrationCount) :
    IntegratorCall.integrate ∈ (integrateShot env w c).2 := by
  rw [integrateShot_snd_of_ne env w c h]
  simp

theorem integrateSensitivities_linearize_mem
    (h : w.updateCount ≠ c.sensIntegrationCount) :
    IntegratorCall.linearize ∈ (integrateSensitivities env w c).2 := by
  rw [integrateSensitivities_snd_of_ne env w c h]
  refine List.mem_append.mpr (Or.inr ?_)
  split <;> simp

theorem integrateSensitivities_integrate_mem
    (h : w.updateCount ≠ c.sensIntegrationCount)
    (h2 : w.updateCount ≠ c.integrationCount) :
    IntegratorCall.integrate ∈ (integrateSensitivities env w c).2 := by
  rw [integrateSensitivities_snd_of_ne env w c h]
  exact List.mem_append.mpr (Or.inl (integrateShot_integrate_mem env w _ h2))

/-- C2: invoking a tier whose stored counter differs from the current
update counter recomputes it (its integrator routine appears in the
invocation log), brings its stored counter — and the counters of its
prerequisite tiers, recomputing them when they were stale — up to the
current update counter, and hence never silently reuses a stale cached
value as fresh.  The container is assumed to satisfy the downward-closure
freshness invariant, which holds in every reachable program state. -/
theorem stale_tier_recomputes (env : Env Content St Ct M SCM Lin Sens)
    (w : DecisionVector Content) (c : ShotContainer St Ct M SCM Lin Sens)
    (hinv : freshInv c w) :
    (w.updateCount ≠ c.integrationCount →
      (integrateShot env w c).1.integrationCount = w.updateCount ∧
      IntegratorCall.integrate ∈ (integrateShot env w c).2) ∧
    (w.updateCount ≠ c.costIntegrationCount →
      (integrateCost env w c).1.costIntegrationCount = w.updateCount ∧
      (integrateCost env w c).1.integrationCount = w.updateCount ∧
      IntegratorCall.integrateCost ∈ (integrateCost env w c).2 ∧
      (w.updateCount ≠ c.integrationCount →
        IntegratorCall.integrate ∈ (integrateCost env w c).2)) ∧
    (w.updateCount ≠ c.sensIntegrationCount →
      (integrateSensitivities env w c).1.sensIntegrationCount = w.updateCount ∧
      (integrateSensitivities env w c).1.integrationCount = w.updateCount ∧
      IntegratorCall.linearize ∈ (integrateSensitivities env w c).2 ∧
      IntegratorCall.sensitivityDX0 ∈ (integrateSensitivities env w c).2 ∧
      (w.updateCount ≠ c.integrationCount →
        IntegratorCall.integrate ∈ (integrateSensitivities env w c).2)) ∧
    (w.updateCount ≠ c.costSensIntegrationCount →
      (integrateCostSensitivities env w c).1.costSensIntegrationCount = w.updateCount ∧
      (integrateCostSensitivities env w c).1.sensIntegrationCount = w.updateCount ∧
      (integrateCostSensitivities env w c).1.integrationCount = w.updateCount ∧
      IntegratorCall.costSensitivityDX0 ∈ (integrateCostSensitivities env w c).2 ∧
      (w.updateCount ≠ c.sensIntegrationCount →
        IntegratorCall.linearize ∈ (integrateCostSensitivities env w c).2) ∧
      (w.updateCount ≠ c.integrationCount →
        IntegratorCall.integrate ∈ (integrateCostSensitivities env w c).2)) := by
  refine ⟨fun h => ⟨by simp, ?_⟩, fun h => ⟨by simp, ?_, ?_, ?_⟩,
    fun h => ⟨by simp, ?_, ?_, ?_, ?_⟩, fun h => ⟨by simp, ?_, ?_, ?_, ?_, ?_⟩⟩
  · rw [integrateShot_snd_of_ne env w c h]
    simp
  · exact integrateCost_stale_integrationCount env w c h
  · rw [integrateCost_snd_of_ne env w c h]
    exact List.mem_append.mpr (Or.inr (by simp))
  · intro h2
    rw [integrateCost_snd_of_ne env w c h]
    exact List.mem_append.mpr (Or.inl (integrateShot_integrate_mem env w _ h2))
  · exact integrateSensitivities_stale_integrationCount env w c h
  · rw [integrateSensitivities_snd_of_ne env w c h]
    refine List.mem_append.mpr (Or.inr ?_)
    split <;> simp
  · rw [integrateSensitivities_snd_of_ne env w c h]
    refine List.mem_append.mpr (Or.inr ?_)
    split <;> simp
  · intro h2
    exact integrateSensitivities_integrate_mem env w c h h2
  · exact integrateCostSensitivities_stale_sensIntegrationCount env w c h
  · exact integrateCostSensitivities_stale_integrationCount env w c hinv h
  · rw [integrateCostSensitivities_snd_of_ne env w c h]
    refine List.mem_append.mpr (Or.inr ?_)
    split <;> simp
  · intro h2
    rw [integrateCostSensitivities_snd_of_ne env w c h]
    exact List.mem_append.mpr
      (Or.inl (integrateSensitivities_linearize_mem env w _ h2))
  · intro h3
    have hsens : w.updateCount ≠ c.sensIntegrationCount := by
      intro hs
      exact h3 (hinv.2.1 hs.symm).symm
    rw [integrateCostSensitivities_snd_of_ne env w c h]
    exact List.mem_append.mpr
      (Or.inl (integrateSensitivities_integrate_mem env w _ hsens h3))

/-- Witness for C2 at a concrete input. -/
theorem stale_tier_recomputes_witness :
    freshInv testC testW ∧
    testW.updateCount ≠ testC.costSensIntegrationCount ∧
    (integrateCostSensitivities testEnv testW testC).1.costSensIntegrationCount =
      testW.updateCount ∧
    (integrateCostSensitivities testEnv testW testC).1.sensIntegrationCount =
      testW.updateCount ∧
    (integrateCostSensitivities testEnv testW testC).1.integrationCount =
      testW.updateCount :=
  ⟨by decide, by decide,
    ((stale_tier_recomputes testEnv testW testC (by decide)).2.2.2 (by decide)).1,
    ((stale_tier_recomputes testEnv testW testC (by decide)).2.2.2 (by decide)).2.1,
    ((stale_tier_recomputes testEnv testW testC (by decide)).2.2.2 (by decide)).2.2.1⟩

/-- C6: whenever `integrateSensitivities` recomputes, it stores a
linearization of the trajectory and the resulting terminal sensitivities
are the integrals of the identity seed (w.r.t. the initial state) and the
zero seed (w.r.t. the start control) under that linearization; the
end-control sensitivity is integrated — and, when stale,
`integrateCostSensitivities` integrates the end-control cost gradient —
if and only if the control spline type is piecewise-linear. -/
theorem sens_seeding_and_spline_gating (env : Env Content St Ct M SCM Lin Sens)
    (w : DecisionVector Content) (c : ShotContainer St Ct M SCM Lin Sens)
    (h : w.updateCount ≠ c.sensIntegrationCount) :
    (∃ lin,
      (integrateSensitivities env w c).1.integratorCT.linearization = some lin ∧
      (integrateSensitivities env w c).1.dXdSiBack =
        env.sensDX0 (some lin) env.idM c.tStart c.nSteps c.settings.dt_sim ∧
      (integrateSensitivities env w c).1.dXdQiBack =
        env.sensDU0 (some lin) env.zeroSCM c.tStart c.nSteps c.settings.dt_sim) ∧
    (IntegratorCall.sensitivityDUf ∈ (integrateSensitivities env w c).2 ↔
      c.settings.splineType = SplineType.PIECEWISE_LINEAR) ∧
    (w.updateCount ≠ c.costSensIntegrationCount →
      (IntegratorCall.costSensitivityDUf ∈ (integrateCostSensitivities env w c).2 ↔
        c.settings.splineType = SplineType.PIECEWISE_LINEAR)) := by
  refine ⟨?_, ?_, ?_⟩
  · unfold integrateSensitivities
    rw [if_pos h]
    dsimp only
    split <;> exact ⟨_, rfl, by simp, by simp⟩
  · rw [integrateSensitivities_snd_of_ne env w c h]
    constructor
    · intro hm
      rcases List.mem_append.mp hm with hm | hm
      · exact absurd (integrateShot_snd_mem env w _ hm) (by decide)
      · split at hm
        · next hPL => exact hPL
        · simp at hm
    · intro hPL
      refine List.mem_append.mpr (Or.inr ?_)
      rw [if_pos hPL]
      simp
  · intro h2
    rw [integrateCostSensitivities_snd_of_ne env w c h2]
    constructor
    · intro hm
      rcases List.mem_append.mp hm with hm | hm
      · rcases integrateSensitivities_snd_mem env w _ hm with h' | h' | h' | h' | h' <;>
          exact absurd h' (by decide)
      · split at hm
        · next hPL => exact hPL
        · simp at hm
    · intro hPL
      refine List.mem_append.mpr (Or.inr ?_)
      rw [if_pos hPL]
      simp

@[simp] theorem integrateCostSensitivities_fst_nSteps :
    (integrateCostSensitivities env w c).1.nSteps = c.nSteps := by
  unfold integrateCostSensitivities
  split
  · dsimp only
    split <;> simp
  · rfl

@[simp] theorem integrateCostSensitivities_fst_tStart :
    (integrateCostSensitivities env w c).1.tStart = c.tStart := by
  unfold integrateCostSensitivities
  split
  · dsimp only
    split <;> simp
  · rfl

@[simp] theorem integrateCostSensitivities_fst_settings :
    (integrateCostSensitivities env w c).1.settings = c.settings := by
  unfold integrateCostSensitivities
  split
  · dsimp only
    split <;> simp
  · rfl

@[simp] theorem integrateCostSensitivities_fst_shotNr :
    (integrateCostSensitivities env w c).1.shotNr = c.shotNr := by
  unfold integrateCostSensitivities
  split
  · dsimp only
    split <;> simp
  · rfl

theorem integrateCostSensitivities_costSensDX0_mem
    (h : w.updateCount ≠ c.costSensIntegrationCount) :
    IntegratorCall.costSensitivityDX0 ∈ (integrateCostSensitivities env w c).2 := by
  rw [integrateCostSensitivities_snd_of_ne env w c h]
  refine List.mem_append.mpr (Or.inr ?_)
  split <;> simp

/-- The concrete constructor call producing `testC`. -/
theorem mk_testC_ok :
    mkShotContainer testEnv testTimeGrid 0 testSettings (7:Int) (8:Int) (9:Int) =
      Except.ok testC := by
  unfold mkShotContainer
  rw [if_neg (by decide), if_neg (by decide), if_neg (by decide)]
  simp only [testC, testTimeGrid, testSettings, testEnv, Except.ok.injEq,
    ShotContainer.mk.injEq]
  norm_num
  rfl

/-- Witness for C6 at a concrete input. -/
theorem sens_seeding_and_spline_gating_witness :
    testW.updateCount ≠ testC.sensIntegrationCount ∧
    ((∃ lin,
      (integrateSensitivities testEnv testW testC).1.integratorCT.linearization =
        some lin ∧
      (integrateSensitivities testEnv testW testC).1.dXdSiBack =
        testEnv.sensDX0 (some lin) testEnv.idM testC.tStart testC.nSteps
          testC.settings.dt_sim ∧
      (integrateSensitivities testEnv testW testC).1.dXdQiBack =
        testEnv.sensDU0 (some lin) testEnv.zeroSCM testC.tStart testC.nSteps
          testC.settings.dt_sim) ∧
    (IntegratorCall.sensitivityDUf ∈ (integrateSensitivities testEnv testW testC).2 ↔
      testC.settings.splineType = SplineType.PIECEWISE_LINEAR) ∧
    (testW.updateCount ≠ testC.costSensIntegrationCount →
      (IntegratorCall.costSensitivityDUf ∈
          (integrateCostSensitivities testEnv testW testC).2 ↔
        testC.settings.splineType = SplineType.PIECEWISE_LINEAR))) :=
  ⟨by decide, sens_seeding_and_spline_gating testEnv testW testC (by decide)⟩

/-- Settings selecting the adaptive RK5 scheme. -/
def testSettingsRK5 : DmsSettings :=
  { testSettings with integrationType := .RK5 }

/-- C4: constructing a `ShotContainer` with a shot index at or beyond the
horizon length `N`, or with the adaptive RK5 scheme, or with any scheme
other than Euler or RK4, fails with a fatal configuration error and
produces no object; construction with Euler or RK4 and an in-range shot
index succeeds. -/
theorem mk_config_error_semantics (env : Env Content St Ct M SCM Lin Sens)
    (tg : TimeGrid) (shotNr : Nat) (settings : DmsSettings)
    (uM : M) (uQi uQip1 : SCM) :
    (shotNr ≥ settings.N ∨ settings.integrationType = IntegrationType.RK5 ∨
      settings.integrationType = IntegrationType.UNKNOWN →
      ∃ e, mkShotContainer env tg shotNr settings uM uQi uQip1 = Except.error e) ∧
    (shotNr < settings.N ∧ (settings.integrationType = IntegrationType.EULER ∨
      settings.integrationType = IntegrationType.RK4) →
      ∃ c, mkShotContainer env tg shotNr settings uM uQi uQip1 = Except.ok c) := by
  constructor
  · intro h
    unfold mkShotContainer
    rcases h with h | h | h
    · rw [if_pos h]
      exact ⟨_, rfl⟩
    · by_cases hN : shotNr ≥ settings.N
      · rw [if_pos hN]
        exact ⟨_, rfl⟩
      · rw [if_neg hN, if_pos h]
        exact ⟨_, rfl⟩
    · by_cases hN : shotNr ≥ settings.N
      · rw [if_pos hN]
        exact ⟨_, rfl⟩
      · by_cases h5 : settings.integrationType = IntegrationType.RK5
        · rw [if_neg hN, if_pos h5]
          exact ⟨_, rfl⟩
        · rw [if_neg hN, if_neg h5, if_pos h]
          exact ⟨_, rfl⟩
  · rintro ⟨hN, hT⟩
    unfold mkShotContainer
    rw [if_neg (by omega)]
    rcases hT with h | h <;> rw [h] <;>
      rw [if_neg (by decide), if_neg (by decide)] <;> exact ⟨_, rfl⟩

/-- Witness for C4 at concrete inputs: RK5 settings are rejected, Euler
settings with an in-range index are accepted. -/
theorem mk_config_error_semantics_witness :
    ((0 ≥ testSettingsRK5.N ∨ testSettingsRK5.integrationType = IntegrationType.RK5 ∨
        testSettingsRK5.integrationType = IntegrationType.UNKNOWN) ∧
      ∃ e, mkShotContainer testEnv testTimeGrid 0 testSettingsRK5 (7:Int) (8:Int) (9:Int) =
        Except.error e) ∧
    ((0 < testSettings.N ∧ (testSettings.integrationType = IntegrationType.EULER ∨
        testSettings.integrationType = IntegrationType.RK4)) ∧
      ∃ c, mkShotContainer testEnv testTimeGrid 0 testSettings (7:Int) (8:Int) (9:Int) =
        Except.ok c) :=
  ⟨⟨by decide,
      (mk_config_error_semantics testEnv testTimeGrid 0 testSettingsRK5 7 8 9).1
        (by decide)⟩,
    ⟨by decide,
      (mk_config_error_semantics testEnv testTimeGrid 0 testSettings 7 8 9).2
        (by decide)⟩⟩

/-- C5 counterexample: on the freshly constructed container the state and
time histories are empty, so `getStateIntegrated` and
`getIntegrationTimeFinal` read the back of an empty vector and have no
value to return (`none` in this model; undefined behaviour in the C++
source), contradicting the claim that they "still return a value". -/
theorem getStateIntegrated_fresh_no_value :
    mkShotContainer testEnv testTimeGrid 0 testSettings (7:Int) (8:Int) (9:Int) =
      Except.ok testC ∧
    getStateIntegrated testC = none ∧ getIntegrationTimeFinal testC = none :=
  ⟨mk_testC_ok, rfl, rfl⟩

/-- C5 (amended): every accessor is side-effect-free (modelled as a pure
function of the container) and returns the currently cached value even
before any integration tier has run; on a freshly constructed container
the cost, gradients and histories have their constructed values and the
sensitivity accessors return the indeterminate default-constructed
matrices — but `getStateIntegrated` and `getIntegrationTimeFinal`, whose
histories are empty, have no defined value to return (C++ undefined
behaviour, `none` here). -/
theorem accessors_return_cached (env : Env Content St Ct M SCM Lin Sens)
    (tg : TimeGrid) (shotNr : Nat) (settings : DmsSettings)
    (uM : M) (uQi uQip1 : SCM) (c : ShotContainer St Ct M SCM Lin Sens)
    (h : mkShotContainer env tg shotNr settings uM uQi uQip1 = Except.ok c) :
    getXHistory c = [] ∧ getTHistory c = [] ∧ getCostIntegrated c = 0 ∧
    getdLdSiIntegrated c = env.zeroSt ∧ getdLdQiIntegrated c = env.zeroCt ∧
    getdLdQip1Integrated c = env.zeroCt ∧ getdXdSiIntegrated c = uM ∧
    getdXdQiIntegrated c = uQi ∧ getdXdQip1Integrated c = uQip1 ∧
    getStateIntegrated c = none ∧ getIntegrationTimeFinal c = none := by
  rw [mk_ok_fields h]
  exact ⟨rfl, rfl, rfl, rfl, rfl, rfl, rfl, rfl, rfl, rfl, rfl⟩

/-- Witness for the amended C5 at a concrete input. -/
theorem accessors_return_cached_witness :
    mkShotContainer testEnv testTimeGrid 0 testSettings (7:Int) (8:Int) (9:Int) =
      Except.ok testC ∧
    (getXHistory testC = [] ∧ getTHistory testC = [] ∧ getCostIntegrated testC = 0 ∧
      getdLdSiIntegrated testC = testEnv.zeroSt ∧
      getdLdQiIntegrated testC = testEnv.zeroCt ∧
      getdLdQip1Integrated testC = testEnv.zeroCt ∧
      getdXdSiIntegrated testC = 7 ∧ getdXdQiIntegrated testC = 8 ∧
      getdXdQip1Integrated testC = 9 ∧
      getStateIntegrated testC = none ∧ getIntegrationTimeFinal testC = none) :=
  ⟨mk_testC_ok,
    accessors_return_cached testEnv testTimeGrid 0 testSettings 7 8 9 testC mk_testC_ok⟩

/-- C7: `reset` clears only the integrator-internal caches — the four
per-tier counters and every container-cached output are unchanged — so a
subsequent tier call performs integrator work if and only if the update
counter differs from that tier's stored counter, and re-running the full
tier chain after `reset` with an unchanged decision vector reproduces the
original cached outputs exactly. -/
theorem reset_frame_and_reproduce (env : Env Content St Ct M SCM Lin Sens)
    (w : DecisionVector Content) (c : ShotContainer St Ct M SCM Lin Sens) :
    (reset c).integrationCount = c.integrationCount ∧
    (reset c).costIntegrationCount = c.costIntegrationCount ∧
    (reset c).sensIntegrationCount = c.sensIntegrationCount ∧
    (reset c).costSensIntegrationCount = c.costSensIntegrationCount ∧
    cachedOutputs (reset c) = cachedOutputs c ∧
    (∀ t : Tier, (runTier t env w (reset c)).2 = [] ↔ w.updateCount = tierCount t c) ∧
    (c.integrationCount = w.updateCount → c.costIntegrationCount = w.updateCount →
      c.sensIntegrationCount = w.updateCount →
      c.costSensIntegrationCount = w.updateCount →
      cachedOutputs
        (runTiers env w [Tier.shot, Tier.cost, Tier.sens, Tier.costSens] (reset c)).1 =
        cachedOutputs c) := by
  refine ⟨rfl, rfl, rfl, rfl, rfl, ?_, ?_⟩
  · intro t
    cases t
    · by_cases hc : w.updateCount = c.integrationCount
      · simp [runTier, tierCount, integrateShot_noop env w (reset c) hc, hc]
      · simp [runTier, tierCount, integrateShot_snd_of_ne env w (reset c) hc, hc]
    · by_cases hc : w.updateCount = c.costIntegrationCount
      · simp [runTier, tierCount, integrateCost_noop env w (reset c) hc, hc]
      · simp [runTier, tierCount, integrateCost_snd_of_ne env w (reset c) hc, hc]
    · by_cases hc : w.updateCount = c.sensIntegrationCount
      · simp [runTier, tierCount, integrateSensitivities_noop env w (reset c) hc, hc]
      · have hmem := integrateSensitivities_linearize_mem env w (reset c) hc
        simp only [runTier, tierCount, hc, iff_false]
        intro heq
        rw [heq] at hmem
        simp at hmem
    · by_cases hc : w.updateCount = c.costSensIntegrationCount
      · simp [runTier, tierCount,
          integrateCostSensitivities_noop env w (reset c) hc, hc]
      · have hmem := integrateCostSensitivities_costSensDX0_mem env w (reset c) hc
        simp only [runTier, tierCount, hc, iff_false]
        intro heq
        rw [heq] at hmem
        simp at hmem
  · intro h1 h2 h3 h4
    have e1 : integrateShot env w (reset c) = (reset c, []) :=
      integrateShot_noop env w (reset c) h1.symm
    have e2 : integrateCost env w (reset c) = (reset c, []) :=
      integrateCost_noop env w (reset c) h2.symm
    have e3 : integrateSensitivities env w (reset c) = (reset c, []) :=
      integrateSensitivities_noop env w (reset c) h3.symm
    have e4 : integrateCostSensitivities env w (reset c) = (reset c, []) :=
      integrateCostSensitivities_noop env w (reset c) h4.symm
    simp only [runTiers, runTier, e1, e2, e3, e4]
    simp [cachedOutputs, reset]

/-- Witness for C7 at a concrete input. -/
theorem reset_frame_and_reproduce_witness :
    (testC.integrationCount = testW0.updateCount ∧
      testC.costIntegrationCount = testW0.updateCount ∧
      testC.sensIntegrationCount = testW0.updateCount ∧
      testC.costSensIntegrationCount = testW0.updateCount) ∧
    cachedOutputs
      (runTiers testEnv testW0 [Tier.shot, Tier.cost, Tier.sens, Tier.costSens]
        (reset testC)).1 =
      cachedOutputs testC :=
  ⟨⟨by decide, by decide, by decide, by decide⟩,
    (reset_frame_and_reproduce testEnv testW0 testC).2.2.2.2.2.2
      (by decide) (by decide) (by decide) (by decide)⟩

/-- C8: at construction the fixed step count is computed as the shot's
duration from the time grid divided by the fixed simulation step size plus
`0.5`, truncated to an unsigned integer — for a nonnegative duration and
positive step this is within `1/2` of the exact quotient, i.e. a nearest
integer — and no tier call or `reset` ever recomputes it. -/
theorem nSteps_formula_and_frame (env : Env Content St Ct M SCM Lin Sens)
    (tg : TimeGrid) (shotNr : Nat) (settings : DmsSettings)
    (uM : M) (uQi uQip1 : SCM) (c : ShotContainer St Ct M SCM Lin Sens)
    (h : mkShotContainer env tg shotNr settings uM uQi uQip1 = Except.ok c) :
    c.tStart = tg.getShotStartTime shotNr ∧
    c.nSteps = (⌊(tg.getShotEndTime shotNr - tg.getShotStartTime shotNr) /
      settings.dt_sim + 1/2⌋).toNat ∧
    (0 < settings.dt_sim → tg.getShotStartTime shotNr ≤ tg.getShotEndTime shotNr →
      |(c.nSteps : ℚ) - (tg.getShotEndTime shotNr - tg.getShotStartTime shotNr) /
        settings.dt_sim| ≤ 1/2) ∧
    (∀ (w : DecisionVector Content) (t : Tier)
      (c' : ShotContainer St Ct M SCM Lin Sens),
      (runTier t env w c').1.nSteps = c'.nSteps ∧ (reset c').nSteps = c'.nSteps) := by
  refine ⟨by rw [mk_ok_fields h], by rw [mk_ok_fields h], ?_, ?_⟩
  · intro hdt hle
    rw [mk_ok_fields h]
    have hx : (0:ℚ) ≤ (tg.getShotEndTime shotNr - tg.getShotStartTime shotNr) /
        settings.dt_sim :=
      div_nonneg (by linarith) hdt.le
    have hfl : (0:ℤ) ≤ ⌊(tg.getShotEndTime shotNr - tg.getShotStartTime shotNr) /
        settings.dt_sim + 1/2⌋ :=
      Int.floor_nonneg.mpr (by linarith)
    have hcast : ((⌊(tg.getShotEndTime shotNr - tg.getShotStartTime shotNr) /
        settings.dt_sim + 1/2⌋).toNat : ℚ) =
        ((⌊(tg.getShotEndTime shotNr - tg.getShotStartTime shotNr) /
          settings.dt_sim + 1/2⌋ : ℤ) : ℚ) := by
      exact_mod_cast congrArg (fun z : ℤ => (z : ℚ)) (Int.toNat_of_nonneg hfl)
    have h1 : ((⌊(tg.getShotEndTime shotNr - tg.getShotStartTime shotNr) /
        settings.dt_sim + 1/2⌋ : ℤ) : ℚ) ≤
        (tg.getShotEndTime shotNr - tg.getShotStartTime shotNr) /
          settings.dt_sim + 1/2 :=
      Int.floor_le _
    have h2 : (tg.getShotEndTime shotNr - tg.getShotStartTime shotNr) /
        settings.dt_sim + 1/2 - 1 <
        ((⌊(tg.getShotEndTime shotNr - tg.getShotStartTime shotNr) /
          settings.dt_sim + 1/2⌋ : ℤ) : ℚ) :=
      Int.sub_one_lt_floor _
    rw [hcast, abs_le]
    constructor <;> linarith
  · intro w t c'
    refine ⟨?_, rfl⟩
    cases t <;> simp [runTier]

/-- Witness for C8 at a concrete input. -/
theorem nSteps_formula_and_frame_witness :
    mkShotContainer testEnv testTimeGrid 0 testSettings (7:Int) (8:Int) (9:Int) =
      Except.ok testC ∧
    (0:ℚ) < testSettings.dt_sim ∧
    testTimeGrid.getShotStartTime 0 ≤ testTimeGrid.getShotEndTime 0 ∧
    |(testC.nSteps : ℚ) -
      (testTimeGrid.getShotEndTime 0 - testTimeGrid.getShotStartTime 0) /
        testSettings.dt_sim| ≤ 1/2 :=
  ⟨mk_testC_ok, by norm_num [testSettings], by norm_num [testTimeGrid],
    (nSteps_formula_and_frame testEnv testTimeGrid 0 testSettings 7 8 9 testC
        mk_testC_ok).2.2.1
      (by norm_num [testSettings]) (by norm_num [testTimeGrid])⟩

/-- C10: the four per-tier counters are initialized to zero at
construction, so for a decision vector whose update counter is zero every
sequence of tier calls is a no-op performing no integrator invocation,
and the cached outputs keep their constructed values. -/
theorem fresh_container_counter_zero_noop (env : Env Content St Ct M SCM Lin Sens)
    (tg : TimeGrid) (shotNr : Nat) (settings : DmsSettings)
    (uM : M) (uQi uQip1 : SCM) (c : ShotContainer St Ct M SCM Lin Sens)
    (w : DecisionVector Content)
    (h : mkShotContainer env tg shotNr settings uM uQi uQip1 = Except.ok c)
    (h0 : w.updateCount = 0) :
    c.integrationCount = 0 ∧ c.costIntegrationCount = 0 ∧
    c.sensIntegrationCount = 0 ∧ c.costSensIntegrationCount = 0 ∧
    c.x_history = [] ∧ c.t_history = [] ∧ c.cost = 0 ∧
    c.costGradientSi = env.zeroSt ∧ c.costGradientQi = env.zeroCt ∧
    c.costGradientQip1 = env.zeroCt ∧
    ∀ ts : List Tier, runTiers env w ts c = (c, []) := by
  have hnoop : ∀ (c' : ShotContainer St Ct M SCM Lin Sens),
      w.updateCount = c'.integrationCount → w.updateCount = c'.costIntegrationCount →
      w.updateCount = c'.sensIntegrationCount →
      w.updateCount = c'.costSensIntegrationCount →
      ∀ ts : List Tier, runTiers env w ts c' = (c', []) := by
    intro c' h1 h2 h3 h4 ts
    induction ts with
    | nil => rfl
    | cons t rest ih =>
      have ht : runTier t env w c' = (c', []) := by
        cases t
        · exact integrateShot_noop env w c' h1
        · exact integrateCost_noop env w c' h2
        · exact integrateSensitivities_noop env w c' h3
        · exact integrateCostSensitivities_noop env w c' h4
      simp [runTiers, ht, ih]
  have hc := mk_ok_fields h
  subst hc
  exact ⟨rfl, rfl, rfl, rfl, rfl, rfl, rfl, rfl, rfl, rfl, hnoop _ h0 h0 h0 h0⟩

/-- Witness for C10 at a concrete input. -/
theorem fresh_container_counter_zero_noop_witness :
    mkShotContainer testEnv testTimeGrid 0 testSettings (7:Int) (8:Int) (9:Int) =
      Except.ok testC ∧
    testW0.updateCount = 0 ∧
    runTiers testEnv testW0 [Tier.shot, Tier.cost, Tier.sens, Tier.costSens] testC =
      (testC, []) :=
  ⟨mk_testC_ok, rfl,
    (fresh_container_counter_zero_noop testEnv testTimeGrid 0 testSettings 7 8 9 testC
        testW0 mk_testC_ok rfl).2.2.2.2.2.2.2.2.2.2
      [Tier.shot, Tier.cost, Tier.sens, Tier.costSens]⟩

/-! ## Preservation of the freshness invariant (for C9) -/

theorem shot_preserves_inv (hc : countersLe c w.updateCount) (hf : freshInv c w) :
    countersLe (integrateShot env w c).1 w.updateCount ∧
    freshInv (integrateShot env w c).1 w := by
  obtain ⟨l1, l2, l3, l4⟩ := hc
  obtain ⟨f1, f2, f3⟩ := hf
  unfold countersLe freshInv
  simp only [integrateShot_fst_integrationCount, integrateShot_fst_costIntegrationCount,
    integrateShot_fst_sensIntegrationCount, integrateShot_fst_costSensIntegrationCount]
  exact ⟨⟨le_refl _, l2, l3, l4⟩, f1, by simp, by simp⟩

theorem cost_preserves_inv (hc : countersLe c w.updateCount) (hf : freshInv c w) :
    countersLe (integrateCost env w c).1 w.updateCount ∧
    freshInv (integrateCost env w c).1 w := by
  obtain ⟨l1, l2, l3, l4⟩ := hc
  obtain ⟨f1, f2, f3⟩ := hf
  have hi : (integrateCost env w c).1.integrationCount = w.updateCount ∨
      (integrateCost env w c).1.integrationCount = c.integrationCount := by
    by_cases hst : w.updateCount = c.costIntegrationCount
    · rw [integrateCost_noop env w c hst]
      exact Or.inr rfl
    · exact Or.inl (integrateCost_stale_integrationCount env w c hst)
  unfold countersLe freshInv
  simp only [integrateCost_fst_costIntegrationCount,
    integrateCost_fst_sensIntegrationCount, integrateCost_fst_costSensIntegrationCount]
  refine ⟨⟨?_, le_refl _, l3, l4⟩, ?_, ?_, fun _ => ?_⟩
  · rcases hi with hi | hi <;> omega
  · intro h4
    exact f1 h4
  · intro h3
    rcases hi with hi | hi
    · exact hi
    · rw [hi]
      exact f2 h3
  · by_cases hst : w.updateCount = c.costIntegrationCount
    · rw [integrateCost_noop env w c hst]
      exact f3 hst.symm
    · exact integrateCost_stale_integrationCount env w c hst

theorem sens_preserves_inv (hc : countersLe c w.updateCount) (hf : freshInv c w) :
    countersLe (integrateSensitivities env w c).1 w.updateCount ∧
    freshInv (integrateSensitivities env w c).1 w := by
  obtain ⟨l1, l2, l3, l4⟩ := hc
  obtain ⟨f1, f2, f3⟩ := hf
  have hi : (integrateSensitivities env w c).1.integrationCount = w.updateCount ∨
      (integrateSensitivities env w c).1.integrationCount = c.integrationCount := by
    by_cases hst : w.updateCount = c.sensIntegrationCount
    · rw [integrateSensitivities_noop env w c hst]
      exact Or.inr rfl
    · exact Or.inl (integrateSensitivities_stale_integrationCount env w c hst)
  unfold countersLe freshInv
  simp only [integrateSensitivities_fst_sensIntegrationCount,
    integrateSensitivities_fst_costIntegrationCount,
    integrateSensitivities_fst_costSensIntegrationCount]
  refine ⟨⟨?_, l2, le_refl _, l4⟩, by simp, fun _ => ?_, ?_⟩
  · rcases hi with hi | hi <;> omega
  · by_cases hst : w.updateCount = c.sensIntegrationCount
    · rw [integrateSensitivities_noop env w c hst]
      exact f2 hst.symm
    · exact integrateSensitivities_stale_integrationCount env w c hst
  · intro h2
    rcases hi with hi | hi
    · exact hi
    · rw [hi]
      exact f3 h2

theorem csens_preserves_inv (hc : countersLe c w.updateCount) (hf : freshInv c w) :
    countersLe (integrateCostSensitivities env w c).1 w.updateCount ∧
    freshInv (integrateCostSensitivities env w c).1 w := by
  obtain ⟨l1, l2, l3, l4⟩ := hc
  obtain ⟨f1, f2, f3⟩ := hf
  have hpair : (integrateCostSensitivities env w c).1.sensIntegrationCount = w.updateCount ∧
      (integrateCostSensitivities env w c).1.integrationCount = w.updateCount ∨
      integrateCostSensitivities env w c = (c, []) := by
    by_cases hst : w.updateCount = c.costSensIntegrationCount
    · exact Or.inr (integrateCostSensitivities_noop env w c hst)
    · exact Or.inl
        ⟨integrateCostSensitivities_stale_sensIntegrationCount env w c hst,
         integrateCostSensitivities_stale_integrationCount env w c ⟨f1, f2, f3⟩ hst⟩
  rcases hpair with ⟨hs, hi⟩ | hnoop
  · unfold countersLe freshInv
    simp only [integrateCostSensitivities_fst_costSensIntegrationCount,
      integrateCostSensitivities_fst_costIntegrationCount, hs, hi]
    exact ⟨⟨le_refl _, l2, le_refl _, le_refl _⟩, by simp, by simp, by simp⟩
  · rw [hnoop]
    exact ⟨⟨l1, l2, l3, l4⟩, f1, f2, f3⟩

/-- C9: in every reachable container/decision-vector state, tier freshness
is downward closed along the dependency chain: if the cost-sensitivity
tier's counter equals the current update counter then so does the
sensitivity tier's, and if the sensitivity (resp. cost) tier's counter
equals it then so does the state-integration tier's — a downstream tier is
never fresh while a prerequisite is stale. -/
theorem freshness_downward_closed (env : Env Content St Ct M SCM Lin Sens)
    (c : ShotContainer St Ct M SCM Lin Sens) (w : DecisionVector Content)
    (h : Reachable env c w) : freshInv c w := by
  suffices hmain : countersLe c w.updateCount ∧ freshInv c w from hmain.2
  induction h with
  | ctor tg shotNr settings uM uQi uQip1 c w hmk =>
    have hc := mk_ok_fields hmk
    subst hc
    exact ⟨⟨Nat.zero_le _, Nat.zero_le _, Nat.zero_le _, Nat.zero_le _⟩,
      fun h => h, fun h => h, fun h => h⟩
  | mutate c w w' hr hlt ih =>
    obtain ⟨⟨l1, l2, l3, l4⟩, _⟩ := ih
    exact ⟨⟨by omega, by omega, by omega, by omega⟩,
      fun h => by omega, fun h => by omega, fun h => by omega⟩
  | tier t c w hr ih =>
    obtain ⟨hc, hf⟩ := ih
    cases t
    · exact shot_preserves_inv env w c hc hf
    · exact cost_preserves_inv env w c hc hf
    · exact sens_preserves_inv env w c hc hf
    · exact csens_preserves_inv env w c hc hf

/-- Witness for C9 at a concrete reachable state. -/
theorem freshness_downward_closed_witness :
    Reachable testEnv testC testW ∧ freshInv testC testW :=
  ⟨Reachable.ctor testTimeGrid 0 testSettings 7 8 9 testC testW mk_testC_ok,
    freshness_downward_closed testEnv testC testW
      (Reachable.ctor testTimeGrid 0 testSettings 7 8 9 testC testW mk_testC_ok)⟩

/-- C3: for every program state (one satisfying the downward-closure
freshness invariant, which holds in all reachable states), invoking
`integrateCostSensitivities` directly yields the same cached state and
time histories, sensitivity matrices, and cost-gradient outputs as
invoking `integrateShot`, `integrateCost`, `integrateSensitivities`,
`integrateCostSensitivities` in order, since each tier internally ensures
its prerequisites.  (The accumulated cost is not compared: the direct
call does not belong to the cost tier.) -/
theorem costSens_direct_eq_chain (env : Env Content St Ct M SCM Lin Sens)
    (w : DecisionVector Content) (c : ShotContainer St Ct M SCM Lin Sens)
    (hinv : freshInv c w) :
    (integrateCostSensitivities env w c).1.x_history =
      (runTiers env w [Tier.shot, Tier.cost, Tier.sens, Tier.costSens] c).1.x_history ∧
    (integrateCostSensitivities env w c).1.t_history =
      (runTiers env w [Tier.shot, Tier.cost, Tier.sens, Tier.costSens] c).1.t_history ∧
    (integrateCostSensitivities env w c).1.dXdSiBack =
      (runTiers env w [Tier.shot, Tier.cost, Tier.sens, Tier.costSens] c).1.dXdSiBack ∧
    (integrateCostSensitivities env w c).1.dXdQiBack =
      (runTiers env w [Tier.shot, Tier.cost, Tier.sens, Tier.costSens] c).1.dXdQiBack ∧
    (integrateCostSensitivities env w c).1.dXdQip1Back =
      (runTiers env w [Tier.shot, Tier.cost, Tier.sens, Tier.costSens] c).1.dXdQip1Back ∧
    (integrateCostSensitivities env w c).1.costGradientSi =
      (runTiers env w [Tier.shot, Tier.cost, Tier.sens, Tier.costSens] c).1.costGradientSi ∧
    (integrateCostSensitivities env w c).1.costGradientQi =
      (runTiers env w [Tier.shot, Tier.cost, Tier.sens, Tier.costSens] c).1.costGradientQi ∧
    (integrateCostSensitivities env w c).1.costGradientQip1 =
      (runTiers env w [Tier.shot, Tier.cost, Tier.sens,
        Tier.costSens] c).1.costGradientQip1 := by
  obtain ⟨i1, i2, i3⟩ := hinv
  by_cases h1 : w.updateCount = c.integrationCount <;>
    by_cases h2 : w.updateCount = c.costIntegrationCount <;>
    by_cases h3 : w.updateCount = c.sensIntegrationCount <;>
    by_cases h4 : w.updateCount = c.costSensIntegrationCount <;>
  first
  | exact absurd (i1 h4.symm).symm h3
  | exact absurd (i2 h3.symm).symm h1
  | exact absurd (i3 h2.symm).symm h1
  | (by_cases hs : c.settings.splineType = SplineType.PIECEWISE_LINEAR <;>
      simp [runTiers, runTier, integrateCostSensitivities, integrateSensitivities,
        integrateCost, integrateShot, ← h1, ← h2, ← h3, ← h4, hs])
  | (by_cases hs : c.settings.splineType = SplineType.PIECEWISE_LINEAR <;>
      simp [runTiers, runTier, integrateCostSensitivities, integrateSensitivities,
        integrateCost, integrateShot, ← h1, ← h2, ← h3, h4, hs])
  | (by_cases hs : c.settings.splineType = SplineType.PIECEWISE_LINEAR <;>
      simp [runTiers, runTier, integrateCostSensitivities, integrateSensitivities,
        integrateCost, integrateShot, ← h1, ← h2, h3, h4, hs])
  | (by_cases hs : c.settings.splineType = SplineType.PIECEWISE_LINEAR <;>
      simp [runTiers, runTier, integrateCostSensitivities, integrateSensitivities,
        integrateCost, integrateShot, ← h1, h2, ← h3, ← h4, hs])
  | (by_cases hs : c.settings.splineType = SplineType.PIECEWISE_LINEAR <;>
      simp [runTiers, runTier, integrateCostSensitivities, integrateSensitivities,
        integrateCost, integrateShot, ← h1, h2, ← h3, h4, hs])
  | (by_cases hs : c.settings.splineType = SplineType.PIECEWISE_LINEAR <;>
      simp [runTiers, runTier, integrateCostSensitivities, integrateSensitivities,
        integrateCost, integrateShot, ← h1, h2, h3, h4, hs])
  | (by_cases hs : c.settings.splineType = SplineType.PIECEWISE_LINEAR <;>
      simp [runTiers, runTier, integrateCostSensitivities, integrateSensitivities,
        integrateCost, integrateShot, h1, h2, h3, h4, hs])


/-- Witness for C3 at a concrete input. -/
theorem costSens_direct_eq_chain_witness :
    freshInv testC testW ∧
    ((integrateCostSensitivities testEnv testW testC).1.x_history =
      (runTiers testEnv testW [Tier.shot, Tier.cost, Tier.sens, Tier.costSens]
        testC).1.x_history ∧
    (integrateCostSensitivities testEnv testW testC).1.t_history =
      (runTiers testEnv testW [Tier.shot, Tier.cost, Tier.sens, Tier.costSens]
        testC).1.t_history ∧
    (integrateCostSensitivities testEnv testW testC).1.dXdSiBack =
      (runTiers testEnv testW [Tier.shot, Tier.cost, Tier.sens, Tier.costSens]
        testC).1.dXdSiBack ∧
    (integrateCostSensitivities testEnv testW testC).1.dXdQiBack =
      (runTiers testEnv testW [Tier.shot, Tier.cost, Tier.sens, Tier.costSens]
        testC).1.dXdQiBack ∧
    (integrateCostSensitivities testEnv testW testC).1.dXdQip1Back =
      (runTiers testEnv testW [Tier.shot, Tier.cost, Tier.sens, Tier.costSens]
        testC).1.dXdQip1Back ∧
    (integrateCostSensitivities testEnv testW testC).1.costGradientSi =
      (runTiers testEnv testW [Tier.shot, Tier.cost, Tier.sens, Tier.costSens]
        testC).1.costGradientSi ∧
    (integrateCostSensitivities testEnv testW testC).1.costGradientQi =
      (runTiers testEnv testW [Tier.shot, Tier.cost, Tier.sens, Tier.costSens]
        testC).1.costGradientQi ∧
    (integrateCostSensitivities testEnv testW testC).1.costGradientQip1 =
      (runTiers testEnv testW [Tier.shot, Tier.cost, Tier.sens, Tier.costSens]
        testC).1.costGradientQip1) :=
  ⟨by decide, costSens_direct_eq_chain testEnv testW testC (by decide)⟩

end CT.Dms
